import Mathlib

/-!
Shallow embedding of the price-recommender repository.

Numeric values are modelled at two levels.  The base model uses exact
rationals: it is adequate for the branch, range, sign and frame
properties, which are insensitive to the sub-ulp rounding error of the
floats the program computes with.  For value claims that are decided
below one unit in the last place, a second model refines every
arithmetic operation with dbl, the correctly-rounding IEEE-754 binary64
rounding (round to nearest, ties to even, at 53 significant bits),
exactly as the interpreter evaluates the same expressions on doubles.
The Python builtin round(x, 2) is modelled by round-half-even on the
exact value of its argument followed, in the double model, by dbl; this
matches the documented correctly-rounded behaviour of round on floats.
The pricing engine is src/logic/pricing.py, input validation is
src/utils/validation.py, the recommendation flow is
src/ai/chat_handler.py together with src/ui/chat_frame.py and
src/ai/config.py.
-/

/-- Round-half-even of a rational to the nearest integer, mirroring the
tie-breaking rule of the Python builtin round. -/
def roundHalfEven (q : ℚ) : ℤ :=
  if q - ⌊q⌋ < 1/2 then ⌊q⌋
  else if 1/2 < q - ⌊q⌋ then ⌊q⌋ + 1
  else if ⌊q⌋ % 2 = 0 then ⌊q⌋ else ⌊q⌋ + 1

/-- Python round(x, 2) on exact rationals: round x*100 half to even,
then divide by 100. -/
def round2 (q : ℚ) : ℚ := (roundHalfEven (q * 100) : ℚ) / 100

/-- Weight configuration owned by a PricingCalculator instance
(src/logic/pricing.py, fields set in PricingCalculator.init). -/
structure PricingWeights where
  uniqueness_weight : ℚ
  demand_weight : ℚ
  economy_modifier : ℚ
  premium_modifier : ℚ
  suggested_price_multiplier : ℚ
deriving DecidableEq

/-- Default weights set by PricingCalculator.init:
0.05, 0.04, 0.85, 1.25, 2.0. -/
def defaultWeights : PricingWeights :=
  { uniqueness_weight := 5/100
    demand_weight := 4/100
    economy_modifier := 85/100
    premium_modifier := 125/100
    suggested_price_multiplier := 2 }

/-- The dictionary returned by PricingCalculator.calculate_price
(src/logic/pricing.py lines 81 to 96), one field per key. -/
structure PricingResult where
  material_cost : ℚ
  labor_cost : ℚ
  base_price : ℚ
  uniqueness_adjustment : ℚ
  demand_adjustment : ℚ
  factor_adjustment : ℚ
  adjusted_price : ℚ
  profit_amount : ℚ
  profit_margin_percentage : ℚ
  markup_percentage : ℚ
  final_price : ℚ
  economy_price : ℚ
  premium_price : ℚ
  selling_price : ℚ
deriving DecidableEq

/-- The local variables of PricingCalculator.calculate_price before the
rounding block at lines 72 to 78: every quantity at full precision.
A selling_price of none models the Python argument None. -/
def calculate_price_raw (w : PricingWeights)
    (material_cost hours_worked labor_rate uniqueness demand : ℚ)
    (selling_price : Option ℚ) : PricingResult :=
  let labor_cost := hours_worked * labor_rate
  let base_price := material_cost + labor_cost
  let uniqueness_adjustment := base_price * (uniqueness - 5) * w.uniqueness_weight
  let demand_adjustment := base_price * (demand - 5) * w.demand_weight
  let factor_adjustment := uniqueness_adjustment + demand_adjustment
  let adjusted_price := base_price + factor_adjustment
  let final_price :=
    match selling_price with
    | some sp =>
        if sp > 0 then sp else adjusted_price * w.suggested_price_multiplier
    | none => adjusted_price * w.suggested_price_multiplier
  let profit_amount := final_price - adjusted_price
  let profit_margin_percentage :=
    if final_price > 0 then (profit_amount / final_price) * 100 else 0
  let markup_percentage :=
    if adjusted_price > 0 then (profit_amount / adjusted_price) * 100 else 0
  let economy_price := final_price * w.economy_modifier
  let premium_price := final_price * w.premium_modifier
  { material_cost := material_cost
    labor_cost := labor_cost
    base_price := base_price
    uniqueness_adjustment := uniqueness_adjustment
    demand_adjustment := demand_adjustment
    factor_adjustment := factor_adjustment
    adjusted_price := adjusted_price
    profit_amount := profit_amount
    profit_margin_percentage := profit_margin_percentage
    markup_percentage := markup_percentage
    final_price := final_price
    economy_price := economy_price
    premium_price := premium_price
    selling_price := selling_price.getD 0 }

/-- PricingCalculator.calculate_price: the raw computation followed by
the rounding block of lines 72 to 78, which rounds exactly final_price,
economy_price, premium_price, profit_amount, profit_margin_percentage
and markup_percentage to 2 decimals; the other keys of the returned
dictionary keep the unrounded locals. -/
def calculate_price (w : PricingWeights)
    (material_cost hours_worked labor_rate uniqueness demand : ℚ)
    (selling_price : Option ℚ) : PricingResult :=
  let r := calculate_price_raw w material_cost hours_worked labor_rate
    uniqueness demand selling_price
  { r with
    final_price := round2 r.final_price
    economy_price := round2 r.economy_price
    premium_price := round2 r.premium_price
    profit_amount := round2 r.profit_amount
    profit_margin_percentage := round2 r.profit_margin_percentage
    markup_percentage := round2 r.markup_percentage }

/-- PricingCalculator.update_weights (src/logic/pricing.py lines 98
to 111): a chain of assignments, each guarded by an is-not-None test. -/
def update_weights (w : PricingWeights)
    (uniqueness_weight demand_weight economy_modifier premium_modifier
      suggested_price_multiplier : Option ℚ) : PricingWeights :=
  let w1 := match uniqueness_weight with
    | some v => { w with uniqueness_weight := v }
    | none => w
  let w2 := match demand_weight with
    | some v => { w1 with demand_weight := v }
    | none => w1
  let w3 := match economy_modifier with
    | some v => { w2 with economy_modifier := v }
    | none => w2
  let w4 := match premium_modifier with
    | some v => { w3 with premium_modifier := v }
    | none => w3
  match suggested_price_multiplier with
  | some v => { w4 with suggested_price_multiplier := v }
  | none => w4

/-- An input value as fed to src/utils/validation.py: a Python number,
a string holding a number, or a value the float and int builtins cannot
convert. -/
inductive PyVal where
  | num (q : ℚ)
  | numStr (q : ℚ)
  | nonNum
deriving DecidableEq

/-- Python int() applied to a number: truncation toward zero. -/
def pyTrunc (q : ℚ) : ℤ := if 0 ≤ q then ⌊q⌋ else ⌈q⌉

/-- Python float(value): succeeds on numbers and on numeric strings. -/
def pyFloat : PyVal → Option ℚ
  | .num q => some q
  | .numStr q => some q
  | .nonNum => none

/-- Python int(value): truncates a number toward zero; converts a string
only when it spells an integer; fails otherwise. -/
def pyInt : PyVal → Option ℤ
  | .num q => some (pyTrunc q)
  | .numStr q => if q.den = 1 then some q.num else none
  | .nonNum => none

/-- Whether a value is below an optional lower bound. -/
def belowMin (minValue : Option ℚ) (v : ℚ) : Bool :=
  match minValue with
  | some m => v < m
  | none => false

/-- Whether a value is above an optional upper bound. -/
def aboveMax (maxValue : Option ℚ) (v : ℚ) : Bool :=
  match maxValue with
  | some m => m < v
  | none => false

/-- Whether an integer is below an optional lower bound. -/
def belowMinInt (minValue : Option ℤ) (v : ℤ) : Bool :=
  match minValue with
  | some m => v < m
  | none => false

/-- Whether an integer is above an optional upper bound. -/
def aboveMaxInt (maxValue : Option ℤ) (v : ℤ) : Bool :=
  match maxValue with
  | some m => m < v
  | none => false

/-- validate_numeric_input (src/utils/validation.py lines 5 to 35).
The range ValueError raised inside the try block is caught by the
except clause of line 34, so every failure, bound violation included,
surfaces with the message field_name ++ " must be a valid number". -/
def validate_numeric_input (value : PyVal) (minValue maxValue : Option ℚ)
    (field_name : String) : Except String ℚ :=
  match pyFloat value with
  | none => .error (field_name ++ " must be a valid number")
  | some float_value =>
      if belowMin minValue float_value then
        .error (field_name ++ " must be a valid number")
      else if aboveMax maxValue float_value then
        .error (field_name ++ " must be a valid number")
      else .ok float_value

/-- validate_integer_input (src/utils/validation.py lines 37 to 67).
As in validate_numeric_input, the range ValueError is swallowed by the
except clause, so every failure carries " must be a valid integer".
Bounds are checked on the converted integer. -/
def validate_integer_input (value : PyVal) (minValue maxValue : Option ℤ)
    (field_name : String) : Except String ℤ :=
  match pyInt value with
  | none => .error (field_name ++ " must be a valid integer")
  | some int_value =>
      if belowMinInt minValue int_value then
        .error (field_name ++ " must be a valid integer")
      else if aboveMaxInt maxValue int_value then
        .error (field_name ++ " must be a valid integer")
      else .ok int_value

/-- The dictionary returned by validate_pricing_inputs: costs as floats,
ratings as ints, and a selling_price key present only when supplied
and strictly positive. -/
structure ValidatedInputs where
  material_cost : ℚ
  hours_worked : ℚ
  labor_rate : ℚ
  uniqueness : ℤ
  demand : ℤ
  selling_price : Option ℚ
deriving DecidableEq

/-- validate_pricing_inputs (src/utils/validation.py lines 69 to 123):
validates the three costs as numbers with min 0, the two ratings as
integers in [1, 10], and the optional selling price as a number with
min 0, including it in the result only when strictly positive. -/
def validate_pricing_inputs
    (material_cost hours_worked labor_rate uniqueness demand : PyVal)
    (selling_price : Option PyVal) : Except String ValidatedInputs := do
  let validated_material_cost ←
    validate_numeric_input material_cost (some 0) none "Material cost"
  let validated_hours_worked ←
    validate_numeric_input hours_worked (some 0) none "Hours worked"
  let validated_labor_rate ←
    validate_numeric_input labor_rate (some 0) none "Labor rate"
  let validated_uniqueness ←
    validate_integer_input uniqueness (some 1) (some 10) "Uniqueness rating"
  let validated_demand ←
    validate_integer_input demand (some 1) (some 10) "Demand rating"
  let validated_selling_price ← match selling_price with
    | none => pure (none : Option ℚ)
    | some sp => do
        let v ← validate_numeric_input sp (some 0) none "Selling price"
        pure (some v)
  pure
    { material_cost := validated_material_cost
      hours_worked := validated_hours_worked
      labor_rate := validated_labor_rate
      uniqueness := validated_uniqueness
      demand := validated_demand
      selling_price :=
        match validated_selling_price with
        | some v => if v > 0 then some v else none
        | none => none }

/-- A pricing recommendation (src/ai/models.py PricingRecommendation):
the six numeric parameters plus a free-text explanation. -/
structure Recommendation where
  material_cost : ℚ
  hours_worked : ℚ
  labor_rate : ℚ
  uniqueness : ℚ
  demand : ℚ
  selling_price : ℚ
  explanation : String
deriving DecidableEq

/-- DEFAULT_PRICING_PARAMETERS (src/ai/config.py lines 38 to 45). -/
structure PricingParameters where
  material_cost : ℚ
  hours_worked : ℚ
  labor_rate : ℚ
  uniqueness : ℚ
  demand : ℚ
  selling_price : ℚ
deriving DecidableEq

/-- The fixed defaults of src/ai/config.py. -/
def DEFAULT_PRICING_PARAMETERS : PricingParameters :=
  { material_cost := 10
    hours_worked := 2
    labor_rate := 15
    uniqueness := 5
    demand := 5
    selling_price := 0 }

/-- The fallback recommendation built by ChatFrame._generate_recommendations
(src/ui/chat_frame.py lines 234 to 243) from DEFAULT_PRICING_PARAMETERS. -/
def fallbackRecommendation : Recommendation :=
  { material_cost := DEFAULT_PRICING_PARAMETERS.material_cost
    hours_worked := DEFAULT_PRICING_PARAMETERS.hours_worked
    labor_rate := DEFAULT_PRICING_PARAMETERS.labor_rate
    uniqueness := DEFAULT_PRICING_PARAMETERS.uniqueness
    demand := DEFAULT_PRICING_PARAMETERS.demand
    selling_price := DEFAULT_PRICING_PARAMETERS.selling_price
    explanation := "These are default recommendations since the AI is not available. In a real scenario, these would be generated based on our conversation." }

/-- ChatFrame._generate_recommendations (src/ui/chat_frame.py lines 227
to 251): takes the outcome of get_recommendations and the availability
of the AI client; substitutes the fallback recommendation exactly when
the outcome is None and the client is not available. -/
def generate_recommendations (recommendations : Option Recommendation)
    (ai_available : Bool) : Option Recommendation :=
  if recommendations.isNone && !ai_available then some fallbackRecommendation
  else recommendations

/-- A chat message of the conversation history
(src/ai/chat_handler.py, role and content strings). -/
structure ChatMessage where
  role : String
  content : String
deriving DecidableEq

/-- Python str.capitalize: first character to upper case, the rest to
lower case. -/
def pyCapitalize (s : String) : String :=
  match s.data with
  | [] => ""
  | c :: rest => String.mk (c.toUpper :: rest.map Char.toLower)

/-- The conversation summary built by ChatHandler.get_recommendations
(src/ai/chat_handler.py lines 75 to 78): role capitalized, then a colon
and the content, joined with newlines. -/
def conversation_summary (history : List ChatMessage) : String :=
  String.intercalate "\n"
    (history.map (fun m => pyCapitalize m.role ++ ": " ++ m.content))

/-- ChatHandler.get_recommendations (src/ai/chat_handler.py lines 60
to 94), instrumented with the list of queries sent to the AI client.
The client is an oracle from the summary text to either an exception
(.error), no data (.ok none) or a recommendation (.ok (some r)); the
method returns None when the history holds fewer than 3 messages, and
otherwise forwards the summary and returns the result, mapping both
failure modes to None. -/
def get_recommendations (history : List ChatMessage)
    (fetch : String → Except String (Option Recommendation)) :
    Option Recommendation × List String :=
  if history.length < 3 then (none, [])
  else
    let q := conversation_summary history
    match fetch q with
    | .error _ => (none, [q])
    | .ok (some r) => (some r, [q])
    | .ok none => (none, [q])

/-- Correctly-rounding IEEE-754 binary64 rounding of an exact rational:
round to nearest with ties to even at 53 significant bits.  The
exponent of the unit in the last place is Int.log 2 |q| - 52; overflow
and subnormals are outside the range this development evaluates. -/
def dbl (q : ℚ) : ℚ :=
  if q = 0 then 0
  else (roundHalfEven (q / 2 ^ (Int.log 2 |q| - 52)) : ℚ) *
    2 ^ (Int.log 2 |q| - 52)

/-- Python round(x, 2) on a double: the exact value is correctly
rounded to 2 decimals (ties to even) and the resulting decimal is
converted back to the nearest double. -/
def round2f (q : ℚ) : ℚ := dbl (round2 q)

/-- The default weights as the doubles actually stored by
PricingCalculator.init: each decimal literal of the source denotes its
nearest binary64 value. -/
def defaultWeightsF : PricingWeights :=
  { uniqueness_weight := dbl (5/100)
    demand_weight := dbl (4/100)
    economy_modifier := dbl (85/100)
    premium_modifier := dbl (125/100)
    suggested_price_multiplier := dbl 2 }

/-- PricingCalculator.calculate_price under IEEE-754 double semantics:
the same expressions as calculate_price_raw, with every arithmetic
operation rounded to binary64 by dbl (as the interpreter evaluates
floats, left to right), and the output rounding of lines 72 to 78
performed by round2f.  Comparisons are exact on the double values. -/
def calculate_price_fp (w : PricingWeights)
    (material_cost hours_worked labor_rate uniqueness demand : ℚ)
    (selling_price : Option ℚ) : PricingResult :=
  let labor_cost := dbl (hours_worked * labor_rate)
  let base_price := dbl (material_cost + labor_cost)
  let uniqueness_adjustment :=
    dbl (dbl (base_price * dbl (uniqueness - 5)) * w.uniqueness_weight)
  let demand_adjustment :=
    dbl (dbl (base_price * dbl (demand - 5)) * w.demand_weight)
  let factor_adjustment := dbl (uniqueness_adjustment + demand_adjustment)
  let adjusted_price := dbl (base_price + factor_adjustment)
  let final_price :=
    match selling_price with
    | some sp =>
        if sp > 0 then sp
        else dbl (adjusted_price * w.suggested_price_multiplier)
    | none => dbl (adjusted_price * w.suggested_price_multiplier)
  let profit_amount := dbl (final_price - adjusted_price)
  let profit_margin_percentage :=
    if final_price > 0 then dbl (dbl (profit_amount / final_price) * 100)
    else 0
  let markup_percentage :=
    if adjusted_price > 0 then dbl (dbl (profit_amount / adjusted_price) * 100)
    else 0
  let economy_price := dbl (final_price * w.economy_modifier)
  let premium_price := dbl (final_price * w.premium_modifier)
  { material_cost := material_cost
    labor_cost := labor_cost
    base_price := base_price
    uniqueness_adjustment := uniqueness_adjustment
    demand_adjustment := demand_adjustment
    factor_adjustment := factor_adjustment
    adjusted_price := adjusted_price
    profit_amount := round2f profit_amount
    profit_margin_percentage := round2f profit_margin_percentage
    markup_percentage := round2f markup_percentage
    final_price := round2f final_price
    economy_price := round2f economy_price
    premium_price := round2f premium_price
    selling_price := selling_price.getD 0 }

/-! Helper lemmas about the rounding model. -/

theorem roundHalfEven_nonneg (q : ℚ) (h : 0 ≤ q) : 0 ≤ roundHalfEven q := by
  unfold roundHalfEven
  have h0 : (0 : ℤ) ≤ ⌊q⌋ := Int.floor_nonneg.mpr h
  split
  · exact h0
  · split
    · omega
    · split
      · exact h0
      · omega

theorem roundHalfEven_nonpos (q : ℚ) (h : q ≤ 0) : roundHalfEven q ≤ 0 := by
  unfold roundHalfEven
  have h0 : ⌊q⌋ ≤ 0 := Int.floor_nonpos h
  split
  · exact h0
  · rename_i h1
    have h2 : (1 : ℚ)/2 ≤ q - ⌊q⌋ := le_of_not_lt h1
    have h3 : (⌊q⌋ : ℚ) ≤ -(1/2) := by linarith
    have h4 : ⌊q⌋ < 0 := by
      have : (⌊q⌋ : ℚ) < 0 := lt_of_le_of_lt h3 (by norm_num)
      exact_mod_cast this
    split
    · omega
    · split
      · omega
      · omega

theorem roundHalfEven_neg (q : ℚ) (h : q < -(1/2)) : roundHalfEven q < 0 := by
  unfold roundHalfEven
  have hfl : (⌊q⌋ : ℚ) ≤ q := Int.floor_le q
  have h0 : ⌊q⌋ < 0 := by
    have : (⌊q⌋ : ℚ) < 0 := lt_of_le_of_lt hfl (lt_trans h (by norm_num))
    exact_mod_cast this
  split
  · exact h0
  · rename_i h1
    have h2 : (1 : ℚ)/2 ≤ q - ⌊q⌋ := le_of_not_lt h1
    have h3 : (⌊q⌋ : ℚ) < -1 := by linarith
    have h4 : ⌊q⌋ < -1 := by exact_mod_cast h3
    split
    · omega
    · split
      · omega
      · omega

theorem roundHalfEven_intCast (n : ℤ) : roundHalfEven (n : ℚ) = n := by
  unfold roundHalfEven
  rw [Int.floor_intCast]
  norm_num

theorem round2_nonneg (q : ℚ) (h : 0 ≤ q) : 0 ≤ round2 q := by
  unfold round2
  have h1 : (0 : ℤ) ≤ roundHalfEven (q * 100) :=
    roundHalfEven_nonneg _ (by nlinarith)
  have h2 : (0 : ℚ) ≤ (roundHalfEven (q * 100) : ℚ) := by exact_mod_cast h1
  positivity

theorem round2_nonpos (q : ℚ) (h : q ≤ 0) : round2 q ≤ 0 := by
  unfold round2
  have h1 : roundHalfEven (q * 100) ≤ 0 :=
    roundHalfEven_nonpos _ (by nlinarith)
  have h2 : (roundHalfEven (q * 100) : ℚ) ≤ 0 := by exact_mod_cast h1
  exact div_nonpos_iff.mpr (Or.inr ⟨h2, by norm_num⟩)

theorem round2_neg (q : ℚ) (h : q < -(1/200)) : round2 q < 0 := by
  unfold round2
  have h1 : roundHalfEven (q * 100) < 0 := by
    apply roundHalfEven_neg
    linarith
  have h2 : (roundHalfEven (q * 100) : ℚ) < 0 := by exact_mod_cast h1
  exact div_neg_of_neg_of_pos h2 (by norm_num)

theorem round2_round2 (q : ℚ) : round2 (round2 q) = round2 q := by
  unfold round2
  have h : ((roundHalfEven (q * 100) : ℚ)/100) * 100 =
      (roundHalfEven (q * 100) : ℚ) := by
    field_simp
  rw [h, roundHalfEven_intCast]

theorem round2_zero : round2 0 = 0 := by
  norm_num [round2, roundHalfEven]

theorem round2_eq_of_lt (q : ℚ) (n : ℤ) (h1 : (n : ℚ) ≤ q * 100)
    (h2 : q * 100 - (n : ℚ) < 1/2) : round2 q = (n : ℚ)/100 := by
  have hfl : ⌊q * 100⌋ = n := Int.floor_eq_iff.mpr ⟨h1, by linarith⟩
  have h3 : roundHalfEven (q * 100) = n := by
    unfold roundHalfEven
    rw [hfl]
    exact if_pos h2
  unfold round2
  rw [h3]

theorem round2_eq_of_gt (q : ℚ) (n : ℤ) (h1 : (n : ℚ) ≤ q * 100)
    (h2 : 1/2 < q * 100 - (n : ℚ)) (h3 : q * 100 < (n : ℚ) + 1) :
    round2 q = ((n : ℚ) + 1)/100 := by
  have hfl : ⌊q * 100⌋ = n := Int.floor_eq_iff.mpr ⟨h1, by linarith⟩
  have h4 : roundHalfEven (q * 100) = n + 1 := by
    unfold roundHalfEven
    rw [hfl]
    rw [if_neg (not_lt.mpr (le_of_lt h2)), if_pos h2]
  unfold round2
  rw [h4]
  push_cast
  ring

theorem round2_eq_of_tie_even (q : ℚ) (n : ℤ) (h2 : q * 100 - (n : ℚ) = 1/2)
    (h3 : n % 2 = 0) : round2 q = (n : ℚ)/100 := by
  have hfl : ⌊q * 100⌋ = n := Int.floor_eq_iff.mpr ⟨by linarith, by linarith⟩
  have h4 : roundHalfEven (q * 100) = n := by
    unfold roundHalfEven
    rw [hfl, h2]
    rw [if_neg (lt_irrefl _), if_neg (lt_irrefl _), if_pos h3]
  unfold round2
  rw [h4]

theorem round2_eq_of_tie_odd (q : ℚ) (n : ℤ) (h2 : q * 100 - (n : ℚ) = 1/2)
    (h3 : ¬ n % 2 = 0) : round2 q = ((n : ℚ) + 1)/100 := by
  have hfl : ⌊q * 100⌋ = n := Int.floor_eq_iff.mpr ⟨by linarith, by linarith⟩
  have h4 : roundHalfEven (q * 100) = n + 1 := by
    unfold roundHalfEven
    rw [hfl, h2]
    rw [if_neg (lt_irrefl _), if_neg (lt_irrefl _), if_neg h3]
  unfold round2
  rw [h4]
  push_cast
  ring

/-! Claim theorems. -/

/-- C1 as stated is false: with a user selling price of 2.999 the
returned final_price is the rounded 3.00, not 2.999 exactly. -/
theorem c1_sentinel_counterexample :
    (0:ℚ) < 2999/1000 ∧
    (calculate_price defaultWeights 1 3 (1/10) 3 3
        (some (2999/1000))).final_price ≠ 2999/1000 := by
  refine ⟨by norm_num, ?_⟩
  have e : round2 (2999/1000 : ℚ) = 3 := by
    have h := round2_eq_of_gt (2999/1000) 299 (by norm_num) (by norm_num)
      (by norm_num)
    norm_num at h ⊢; exact h
  simp only [calculate_price, calculate_price_raw]
  norm_num [e]

/-- C1 (amended): calculate_price selects the final price by the
sentinel convention up to the 2-decimal output rounding: when
selling_price is P > 0 the returned final_price is P rounded to 2
decimals (hence P exactly whenever P is a 2-decimal amount), and when
selling_price is absent or 0 it is adjusted_price times
suggested_price_multiplier rounded to 2 decimals. -/
theorem c1_sentinel_selection (w : PricingWeights)
    (mc hw lr u d : ℚ) (sp : Option ℚ) :
    (∀ P : ℚ, sp = some P → 0 < P →
      (calculate_price w mc hw lr u d sp).final_price = round2 P) ∧
    ((sp = none ∨ sp = some 0) →
      (calculate_price w mc hw lr u d sp).final_price =
        round2 ((calculate_price w mc hw lr u d sp).adjusted_price *
          w.suggested_price_multiplier)) := by
  constructor
  · rintro P rfl hP
    simp only [calculate_price, calculate_price_raw]
    rw [if_pos hP]
  · rintro (rfl | rfl)
    · simp only [calculate_price, calculate_price_raw]
    · simp only [calculate_price, calculate_price_raw]
      rw [if_neg (lt_irrefl 0)]

/-- Witness for C1 (amended) at concrete inputs. -/
theorem c1_sentinel_selection_witness :
    (calculate_price defaultWeights 5 2 15 6 7 (some 2)).final_price =
      round2 2 ∧
    (calculate_price defaultWeights 4 1 10 8 3 (some 0)).final_price =
      round2 ((calculate_price defaultWeights 4 1 10 8 3
        (some 0)).adjusted_price * defaultWeights.suggested_price_multiplier) :=
  ⟨(c1_sentinel_selection defaultWeights 5 2 15 6 7 (some 2)).1 2 rfl
      (by norm_num),
   (c1_sentinel_selection defaultWeights 4 1 10 8 3 (some 0)).2 (Or.inr rfl)⟩

/-- C3 as stated is false: on material_cost 1, hours_worked 1,
labor_rate 0.1, uniqueness 6, demand 7, the returned
uniqueness_adjustment is 0.055, which is not a 2-decimal value. -/
theorem c3_rounding_counterexample :
    (calculate_price defaultWeights 1 1 (1/10) 6 7
        none).uniqueness_adjustment = 11/200 ∧
    round2 (11/200) ≠ 11/200 := by
  constructor
  · simp only [calculate_price, calculate_price_raw, defaultWeights]
    norm_num
  · have h := round2_eq_of_tie_odd (11/200) 5 (by norm_num) (by decide)
    norm_num at h
    rw [h]
    norm_num

/-- C3 (amended): the rounding of the output boundary covers exactly
final_price, economy_price, premium_price, profit_amount,
profit_margin_percentage and markup_percentage, which are returned as
2-decimal values; material_cost, labor_cost, base_price,
uniqueness_adjustment, demand_adjustment, factor_adjustment and
adjusted_price are returned at full precision, unrounded. -/
theorem c3_rounding_boundary (w : PricingWeights)
    (mc hw lr u d : ℚ) (sp : Option ℚ) :
    (round2 (calculate_price w mc hw lr u d sp).final_price =
        (calculate_price w mc hw lr u d sp).final_price ∧
      round2 (calculate_price w mc hw lr u d sp).economy_price =
        (calculate_price w mc hw lr u d sp).economy_price ∧
      round2 (calculate_price w mc hw lr u d sp).premium_price =
        (calculate_price w mc hw lr u d sp).premium_price ∧
      round2 (calculate_price w mc hw lr u d sp).profit_amount =
        (calculate_price w mc hw lr u d sp).profit_amount ∧
      round2 (calculate_price w mc hw lr u d sp).profit_margin_percentage =
        (calculate_price w mc hw lr u d sp).profit_margin_percentage ∧
      round2 (calculate_price w mc hw lr u d sp).markup_percentage =
        (calculate_price w mc hw lr u d sp).markup_percentage) ∧
    ((calculate_price w mc hw lr u d sp).material_cost = mc ∧
      (calculate_price w mc hw lr u d sp).labor_cost = hw * lr ∧
      (calculate_price w mc hw lr u d sp).base_price = mc + hw * lr ∧
      (calculate_price w mc hw lr u d sp).uniqueness_adjustment =
        (mc + hw * lr) * (u - 5) * w.uniqueness_weight ∧
      (calculate_price w mc hw lr u d sp).demand_adjustment =
        (mc + hw * lr) * (d - 5) * w.demand_weight ∧
      (calculate_price w mc hw lr u d sp).factor_adjustment =
        (calculate_price w mc hw lr u d sp).uniqueness_adjustment +
          (calculate_price w mc hw lr u d sp).demand_adjustment ∧
      (calculate_price w mc hw lr u d sp).adjusted_price =
        (calculate_price w mc hw lr u d sp).base_price +
          (calculate_price w mc hw lr u d sp).factor_adjustment ∧
      (calculate_price w mc hw lr u d sp).final_price =
        round2 ((calculate_price_raw w mc hw lr u d sp).final_price)) := by
  refine ⟨⟨?_, ?_, ?_, ?_, ?_, ?_⟩, ?_⟩ <;>
    simp [calculate_price, calculate_price_raw, round2_round2]

/-- C4 as stated is false: with adjusted_price 35 and a user selling
price of 34.999 the profit before rounding is -0.001, and the returned
profit_amount is the rounded value 0, not strictly negative. -/
theorem c4_profit_sign_counterexample :
    (0:ℚ) < 34999/1000 ∧
    (34999/1000 : ℚ) <
      (calculate_price defaultWeights 35 0 0 5 5
        (some (34999/1000))).adjusted_price ∧
    (calculate_price defaultWeights 35 0 0 5 5
        (some (34999/1000))).profit_amount = 0 := by
  have e : round2 (-(1/1000) : ℚ) = 0 := by
    have h := round2_eq_of_gt (-(1/1000)) (-1) (by norm_num) (by norm_num)
      (by norm_num)
    norm_num at h ⊢
    exact h
  refine ⟨by norm_num, ?_, ?_⟩
  · simp only [calculate_price, calculate_price_raw, defaultWeights]
    norm_num
  · simp only [calculate_price, calculate_price_raw, defaultWeights]
    norm_num [e]

/-- C4 (amended): for a user selling price with 0 < P < adjusted_price,
the unrounded profit, margin and markup are strictly negative, so the
returned profit_amount, profit_margin_percentage and markup_percentage
are nonpositive, never clamped to a positive value; each one is
strictly negative as soon as the shortfall exceeds what the 2-decimal
rounding can absorb (0.005 in absolute terms for profit_amount, and the
corresponding relative thresholds for the two percentages). -/
theorem c4_profit_sign (w : PricingWeights) (mc hw lr u d P : ℚ)
    (hP : 0 < P)
    (hlt : P < (calculate_price w mc hw lr u d (some P)).adjusted_price) :
    (calculate_price w mc hw lr u d (some P)).profit_amount ≤ 0 ∧
    (calculate_price w mc hw lr u d (some P)).profit_margin_percentage ≤ 0 ∧
    (calculate_price w mc hw lr u d (some P)).markup_percentage ≤ 0 ∧
    (1/200 < (calculate_price w mc hw lr u d (some P)).adjusted_price - P →
      (calculate_price w mc hw lr u d (some P)).profit_amount < 0) ∧
    (P/20000 < (calculate_price w mc hw lr u d (some P)).adjusted_price - P →
      (calculate_price w mc hw lr u d (some P)).profit_margin_percentage < 0) ∧
    ((calculate_price w mc hw lr u d (some P)).adjusted_price/20000 <
        (calculate_price w mc hw lr u d (some P)).adjusted_price - P →
      (calculate_price w mc hw lr u d (some P)).markup_percentage < 0) := by
  simp only [calculate_price, calculate_price_raw] at hlt ⊢
  generalize hA : mc + hw * lr +
    ((mc + hw * lr) * (u - 5) * w.uniqueness_weight +
      (mc + hw * lr) * (d - 5) * w.demand_weight) = A at hlt ⊢
  have hA0 : 0 < A := lt_trans hP hlt
  rw [if_pos hP, if_pos hP, if_pos hA0]
  refine ⟨?_, ?_, ?_, ?_, ?_, ?_⟩
  · exact round2_nonpos _ (by linarith)
  · refine round2_nonpos _ ?_
    have hd : (P - A)/P ≤ 0 := div_nonpos_iff.mpr (Or.inr ⟨by linarith, hP.le⟩)
    nlinarith
  · refine round2_nonpos _ ?_
    have hd : (P - A)/A ≤ 0 := div_nonpos_iff.mpr (Or.inr ⟨by linarith, hA0.le⟩)
    nlinarith
  · intro hgap
    exact round2_neg _ (by linarith)
  · intro hgap
    refine round2_neg _ ?_
    rw [div_mul_eq_mul_div, div_lt_iff₀ hP]
    nlinarith
  · intro hgap
    refine round2_neg _ ?_
    rw [div_mul_eq_mul_div, div_lt_iff₀ hA0]
    nlinarith

/-- Witness for C4 (amended): selling price 30 against adjusted price 35
yields strictly negative profit, margin and markup. -/
theorem c4_profit_sign_witness :
    (calculate_price defaultWeights 35 0 0 5 5 (some 30)).profit_amount < 0 ∧
    (calculate_price defaultWeights 35 0 0 5 5
      (some 30)).profit_margin_percentage < 0 ∧
    (calculate_price defaultWeights 35 0 0 5 5
      (some 30)).markup_percentage < 0 := by
  have hlt : (30:ℚ) <
      (calculate_price defaultWeights 35 0 0 5 5 (some 30)).adjusted_price := by
    simp only [calculate_price, calculate_price_raw, defaultWeights]
    norm_num
  have h := c4_profit_sign defaultWeights 35 0 0 5 5 30 (by norm_num) hlt
  refine ⟨h.2.2.2.1 ?_, h.2.2.2.2.1 ?_, h.2.2.2.2.2 ?_⟩ <;>
    · simp only [calculate_price, calculate_price_raw, defaultWeights]
      norm_num

/-- C5: the division guards of calculate_price: when the adjusted price
is 0 the returned markup_percentage is 0, and when the computed final
price is 0 the returned profit_margin_percentage is 0; the function is
total, every other field still being computed. -/
theorem c5_zero_division_guards (w : PricingWeights)
    (mc hw lr u d : ℚ) (sp : Option ℚ) :
    ((calculate_price w mc hw lr u d sp).adjusted_price = 0 →
      (calculate_price w mc hw lr u d sp).markup_percentage = 0) ∧
    ((calculate_price_raw w mc hw lr u d sp).final_price = 0 →
      (calculate_price w mc hw lr u d sp).profit_margin_percentage = 0) := by
  constructor
  · intro h
    simp only [calculate_price, calculate_price_raw] at h ⊢
    rw [h]
    simp [round2_zero]
  · intro h
    simp only [calculate_price, calculate_price_raw] at h ⊢
    rw [h]
    simp [round2_zero]

/-- Witness for C5 at the all-costs-zero input. -/
theorem c5_zero_division_guards_witness :
    (calculate_price defaultWeights 0 0 0 5 5 none).markup_percentage = 0 ∧
    (calculate_price defaultWeights 0 0 0 5 5 none).profit_margin_percentage
      = 0 := by
  have h := c5_zero_division_guards defaultWeights 0 0 0 5 5 none
  refine ⟨h.1 ?_, h.2 ?_⟩ <;>
    · simp only [calculate_price, calculate_price_raw, defaultWeights]
      norm_num

/-- C6: update_weights merges instead of replacing: every supplied parameter
replaces the stored value and every omitted parameter is left
unchanged, for any subset of the five weight parameters. -/
theorem c6_update_weights_merge (w : PricingWeights)
    (uw dw em pm spm : Option ℚ) :
    ((uw = none → (update_weights w uw dw em pm spm).uniqueness_weight =
        w.uniqueness_weight) ∧
      (∀ v, uw = some v → (update_weights w uw dw em pm spm).uniqueness_weight
        = v)) ∧
    ((dw = none → (update_weights w uw dw em pm spm).demand_weight =
        w.demand_weight) ∧
      (∀ v, dw = some v → (update_weights w uw dw em pm spm).demand_weight
        = v)) ∧
    ((em = none → (update_weights w uw dw em pm spm).economy_modifier =
        w.economy_modifier) ∧
      (∀ v, em = some v → (update_weights w uw dw em pm spm).economy_modifier
        = v)) ∧
    ((pm = none → (update_weights w uw dw em pm spm).premium_modifier =
        w.premium_modifier) ∧
      (∀ v, pm = some v → (update_weights w uw dw em pm spm).premium_modifier
        = v)) ∧
    ((spm = none →
        (update_weights w uw dw em pm spm).suggested_price_multiplier =
          w.suggested_price_multiplier) ∧
      (∀ v, spm = some v →
        (update_weights w uw dw em pm spm).suggested_price_multiplier
          = v)) := by
  obtain _ | v1 := uw <;> obtain _ | v2 := dw <;> obtain _ | v3 := em <;>
    obtain _ | v4 := pm <;> obtain _ | v5 := spm <;>
    simp [update_weights]

/-- Witness for C6: updating only demand_weight to 0.1 changes that
field and no other. -/
theorem c6_update_weights_merge_witness :
    (update_weights defaultWeights none (some (1/10)) none none
      none).demand_weight = 1/10 ∧
    (update_weights defaultWeights none (some (1/10)) none none
      none).uniqueness_weight = defaultWeights.uniqueness_weight ∧
    (update_weights defaultWeights none (some (1/10)) none none
      none).economy_modifier = defaultWeights.economy_modifier ∧
    (update_weights defaultWeights none (some (1/10)) none none
      none).premium_modifier = defaultWeights.premium_modifier ∧
    (update_weights defaultWeights none (some (1/10)) none none
      none).suggested_price_multiplier =
        defaultWeights.suggested_price_multiplier := by
  have h := c6_update_weights_merge defaultWeights none (some (1/10)) none
    none none
  exact ⟨h.2.1.2 _ rfl, h.1.1 rfl, h.2.2.1.1 rfl, h.2.2.2.1.1 rfl,
    h.2.2.2.2.1 rfl⟩

/-- C8 as stated is false: when the Recommender returns no usable data
but the AI client reports itself available, the flow does not degrade
to the fallback recommendation; it yields no recommendation at all. -/
theorem c8_fallback_counterexample :
    generate_recommendations none true = none ∧
    some fallbackRecommendation ≠ (none : Option Recommendation) := by
  exact ⟨rfl, by simp⟩

/-- C8 (amended): the fallback recommendation, built from the fixed
defaults with an explanation flagging it as a non-AI default, is
substituted exactly when the Recommender produced no result and the AI
client is unavailable; when the client is available a failed request
yields no recommendation (and an AI-sourced one passes through
untouched), so a Recommender failure is never surfaced as a
calculation error. -/
theorem c8_fallback_on_unavailable (r : Option Recommendation)
    (rec : Recommendation) :
    generate_recommendations none false = some fallbackRecommendation ∧
    (fallbackRecommendation.material_cost = 10 ∧
      fallbackRecommendation.hours_worked = 2 ∧
      fallbackRecommendation.labor_rate = 15 ∧
      fallbackRecommendation.uniqueness = 5 ∧
      fallbackRecommendation.demand = 5 ∧
      fallbackRecommendation.selling_price = 0) ∧
    fallbackRecommendation.explanation =
      "These are default recommendations since the AI is not available. In a real scenario, these would be generated based on our conversation." ∧
    generate_recommendations r true = r ∧
    generate_recommendations (some rec) false = some rec := by
  refine ⟨rfl, ⟨rfl, rfl, rfl, rfl, rfl, rfl⟩, rfl, ?_, rfl⟩
  cases r <;> rfl

/-- C9: with fewer than 3 recorded messages get_recommendations returns
None and sends no query to the Recommender; with 3 or more it sends
exactly the conversation summary and returns the fetched
recommendation, or None when the fetch fails or returns no data. -/
theorem c9_recommendation_gate (history : List ChatMessage)
    (fetch : String → Except String (Option Recommendation)) :
    (history.length < 3 → get_recommendations history fetch = (none, [])) ∧
    (3 ≤ history.length →
      (get_recommendations history fetch).2 =
        [conversation_summary history] ∧
      (get_recommendations history fetch).1 =
        (match fetch (conversation_summary history) with
          | .ok r => r
          | .error _ => none)) := by
  constructor
  · intro h
    simp [get_recommendations, h]
  · intro h
    have h3 : ¬ history.length < 3 := not_lt.mpr h
    simp only [get_recommendations, if_neg h3]
    cases hf : fetch (conversation_summary history) with
    | error e => simp
    | ok r => cases r <;> simp

/-- Witness for C9: an empty history yields None with no query; a
3-message history forwards the summary and returns the fetched
recommendation. -/
theorem c9_recommendation_gate_witness :
    get_recommendations [] (fun _ => .ok none) = (none, []) ∧
    get_recommendations
        [⟨"system", "s"⟩, ⟨"user", "u"⟩, ⟨"assistant", "a"⟩]
        (fun _ => .ok (some fallbackRecommendation)) =
      (some fallbackRecommendation,
        [conversation_summary
          [⟨"system", "s"⟩, ⟨"user", "u"⟩, ⟨"assistant", "a"⟩]]) := by
  have h1 := (c9_recommendation_gate [] (fun _ => .ok none)).1 (by simp)
  have h2 := (c9_recommendation_gate
    [⟨"system", "s"⟩, ⟨"user", "u"⟩, ⟨"assistant", "a"⟩]
    (fun _ => .ok (some fallbackRecommendation))).2 (by simp)
  exact ⟨h1, Prod.ext h2.2 h2.1⟩

/-- Helper: a nonnegative number passes validate_numeric_input with min
bound 0 and is returned unchanged. -/
theorem validate_numeric_ok (q : ℚ) (hmin : 0 ≤ q) (f : String) :
    validate_numeric_input (.num q) (some 0) none f = .ok q := by
  simp [validate_numeric_input, pyFloat, belowMin, aboveMax, not_lt.mpr hmin]

/-- Helper: a negative number fails validate_numeric_input with min
bound 0, with the generic message of the except clause. -/
theorem validate_numeric_err_below (q : ℚ) (h : q < 0) (f : String) :
    validate_numeric_input (.num q) (some 0) none f =
      .error (f ++ " must be a valid number") := by
  simp [validate_numeric_input, pyFloat, belowMin, aboveMax, h]

/-- Helper: a number whose truncation lands in [1, 10] passes
validate_integer_input and is returned truncated. -/
theorem validate_integer_ok (q : ℚ) (h1 : 1 ≤ pyTrunc q)
    (h10 : pyTrunc q ≤ 10) (f : String) :
    validate_integer_input (.num q) (some 1) (some 10) f =
      .ok (pyTrunc q) := by
  simp [validate_integer_input, pyInt, belowMinInt, aboveMaxInt,
    not_lt.mpr h1, not_lt.mpr h10]

/-- Helper: a number whose truncation is below 1 fails
validate_integer_input. -/
theorem validate_integer_err_below (q : ℚ) (h : pyTrunc q < 1)
    (f : String) :
    validate_integer_input (.num q) (some 1) (some 10) f =
      .error (f ++ " must be a valid integer") := by
  simp [validate_integer_input, pyInt, belowMinInt, aboveMaxInt, h]

/-- Helper: a number whose truncation is above 10 fails
validate_integer_input. -/
theorem validate_integer_err_above (q : ℚ) (h : 10 < pyTrunc q)
    (f : String) :
    validate_integer_input (.num q) (some 1) (some 10) f =
      .error (f ++ " must be a valid integer") := by
  have h1 : ¬ pyTrunc q < 1 := by omega
  simp [validate_integer_input, pyInt, belowMinInt, aboveMaxInt, h, h1]

/-- C7 as stated is false: the in-range fractional rating 6.5 is
accepted but silently truncated to the integer 6 by the int conversion
of validate_integer_input, not returned unchanged. -/
theorem c7_truncation_counterexample :
    validate_pricing_inputs (.num 5) (.num 2) (.num 15) (.num (13/2)) (.num 7)
        none =
      .ok { material_cost := 5, hours_worked := 2, labor_rate := 15,
            uniqueness := 6, demand := 7, selling_price := none } ∧
    ((13/2 : ℚ) ≠ ((6 : ℤ) : ℚ)) := by
  have hu : pyTrunc (13/2) = 6 := by
    unfold pyTrunc
    rw [if_pos (by norm_num)]
    exact Int.floor_eq_iff.mpr (by norm_num)
  have hd : pyTrunc 7 = 7 := by
    unfold pyTrunc
    rw [if_pos (by norm_num)]
    exact Int.floor_eq_iff.mpr (by norm_num)
  constructor
  · norm_num [validate_pricing_inputs, validate_numeric_input,
      validate_integer_input, pyFloat, pyInt, belowMin, aboveMax,
      belowMinInt, aboveMaxInt, hu, hd]
    rfl
  · norm_num

/-- C7 (amended): validate_pricing_inputs raises a ValueError carrying
a field-naming message exactly when a cost field is negative or
non-numeric, or when the int conversion of a rating fails or its
truncation falls outside [1, 10]; in-range cost fields are returned
unchanged, but the ratings are passed through int(), so a fractional
rating such as 6.5 is silently truncated toward zero rather than
rejected or returned as given. -/
theorem c7_validation_behavior (mc hw lr u d : ℚ)
    (hmc : 0 ≤ mc) (hhw : 0 ≤ hw) (hlr : 0 ≤ lr)
    (hu1 : 1 ≤ pyTrunc u) (hu10 : pyTrunc u ≤ 10)
    (hd1 : 1 ≤ pyTrunc d) (hd10 : pyTrunc d ≤ 10) :
    (validate_pricing_inputs (.num mc) (.num hw) (.num lr) (.num u) (.num d)
        none =
      .ok { material_cost := mc, hours_worked := hw, labor_rate := lr,
            uniqueness := pyTrunc u, demand := pyTrunc d,
            selling_price := none }) ∧
    (∀ x : ℚ, x < 0 →
      validate_pricing_inputs (.num x) (.num hw) (.num lr) (.num u) (.num d)
          none =
        .error "Material cost must be a valid number") ∧
    (validate_pricing_inputs .nonNum (.num hw) (.num lr) (.num u) (.num d)
        none =
      .error "Material cost must be a valid number") ∧
    (∀ x : ℚ, pyTrunc x < 1 →
      validate_pricing_inputs (.num mc) (.num hw) (.num lr) (.num x) (.num d)
          none =
        .error "Uniqueness rating must be a valid integer") ∧
    (∀ x : ℚ, 10 < pyTrunc x →
      validate_pricing_inputs (.num mc) (.num hw) (.num lr) (.num x) (.num d)
          none =
        .error "Uniqueness rating must be a valid integer") := by
  refine ⟨?_, ?_, ?_, ?_, ?_⟩
  · rw [validate_pricing_inputs, validate_numeric_ok mc hmc,
      validate_numeric_ok hw hhw, validate_numeric_ok lr hlr,
      validate_integer_ok u hu1 hu10, validate_integer_ok d hd1 hd10]
    rfl
  · intro x hx
    rw [validate_pricing_inputs, validate_numeric_err_below x hx]
    rfl
  · rw [validate_pricing_inputs]
    rfl
  · intro x hx
    rw [validate_pricing_inputs, validate_numeric_ok mc hmc,
      validate_numeric_ok hw hhw, validate_numeric_ok lr hlr,
      validate_integer_err_below x hx]
    rfl
  · intro x hx
    rw [validate_pricing_inputs, validate_numeric_ok mc hmc,
      validate_numeric_ok hw hhw, validate_numeric_ok lr hlr,
      validate_integer_err_above x hx]
    rfl

/-- Witness for C7 (amended): 9.5 truncates to the accepted rating 9;
a negative material cost is rejected with the field-naming message. -/
theorem c7_validation_behavior_witness :
    validate_pricing_inputs (.num 3) (.num 1) (.num 20) (.num (19/2)) (.num 2)
        none =
      .ok { material_cost := 3, hours_worked := 1, labor_rate := 20,
            uniqueness := pyTrunc (19/2), demand := pyTrunc 2,
            selling_price := none } ∧
    validate_pricing_inputs (.num (-1)) (.num 1) (.num 20) (.num (19/2))
        (.num 2) none =
      .error "Material cost must be a valid number" := by
  have hu9 : pyTrunc (19/2) = 9 := by
    unfold pyTrunc
    rw [if_pos (by norm_num)]
    exact Int.floor_eq_iff.mpr (by norm_num)
  have hd2 : pyTrunc 2 = 2 := by
    unfold pyTrunc
    rw [if_pos (by norm_num)]
    exact Int.floor_eq_iff.mpr (by norm_num)
  have h := c7_validation_behavior 3 1 20 (19/2) 2 (by norm_num) (by norm_num)
    (by norm_num) (by rw [hu9]; norm_num) (by rw [hu9]; norm_num)
    (by rw [hd2]; norm_num) (by rw [hd2]; norm_num)
  exact ⟨h.1, h.2.1 (-1) (by norm_num)⟩

/-- C10: with the default weights and validated ranges, the factor
adjustment is at least -0.36 times the base price, so the adjusted
price is at least 0.64 times the base price and nonnegative, the
returned final_price is nonnegative with or without a positive selling
price, and the adjusted price vanishes only when the material cost and
the labor product are both zero, the only state reaching the
zero-denominator guards. -/
theorem c10_default_weight_bounds (mc hw lr u d : ℚ) (sp : Option ℚ)
    (hmc : 0 ≤ mc) (hhw : 0 ≤ hw) (hlr : 0 ≤ lr)
    (hu1 : 1 ≤ u) (hu10 : u ≤ 10) (hd1 : 1 ≤ d) (hd10 : d ≤ 10) :
    (-(36/100) * (calculate_price_raw defaultWeights mc hw lr u d
        sp).base_price ≤
      (calculate_price_raw defaultWeights mc hw lr u d
        sp).factor_adjustment) ∧
    ((64/100) * (calculate_price_raw defaultWeights mc hw lr u d
        sp).base_price ≤
      (calculate_price_raw defaultWeights mc hw lr u d sp).adjusted_price) ∧
    (0 ≤ (calculate_price_raw defaultWeights mc hw lr u d
      sp).adjusted_price) ∧
    (0 ≤ (calculate_price defaultWeights mc hw lr u d sp).final_price) ∧
    ((calculate_price_raw defaultWeights mc hw lr u d sp).adjusted_price = 0 →
      mc = 0 ∧ hw * lr = 0) := by
  have hlab : 0 ≤ hw * lr := mul_nonneg hhw hlr
  have hb : 0 ≤ mc + hw * lr := by linarith
  simp only [calculate_price, calculate_price_raw, defaultWeights]
  have hcoef : 0 ≤ (u - 5) * (5/100) + (d - 5) * (4/100) + 36/100 := by
    linarith
  have hfac : -(36/100) * (mc + hw * lr) ≤
      (mc + hw * lr) * (u - 5) * (5/100) +
        (mc + hw * lr) * (d - 5) * (4/100) := by
    nlinarith [mul_nonneg hb hcoef]
  refine ⟨hfac, by nlinarith, by nlinarith, ?_, ?_⟩
  · cases sp with
    | none =>
        apply round2_nonneg
        nlinarith
    | some P =>
        dsimp only
        by_cases hP : P > 0
        · rw [if_pos hP]
          exact round2_nonneg _ hP.le
        · rw [if_neg hP]
          apply round2_nonneg
          nlinarith
  · intro h
    constructor <;> nlinarith

/-- Witness for C10 at a concrete in-range input. -/
theorem c10_default_weight_bounds_witness :
    (0 ≤ (calculate_price defaultWeights 1 2 3 4 9 none).final_price) ∧
    ((calculate_price_raw defaultWeights 1 2 3 4 9 none).adjusted_price = 0 →
      (1:ℚ) = 0 ∧ (2:ℚ) * 3 = 0) := by
  have h := c10_default_weight_bounds 1 2 3 4 9 none (by norm_num)
    (by norm_num) (by norm_num) (by norm_num) (by norm_num) (by norm_num)
    (by norm_num)
  exact ⟨h.2.2.2.1, h.2.2.2.2⟩

/-! Evaluation helpers for the binary64 model. -/

/-- roundHalfEven evaluation, rounding down (fraction below one half). -/
theorem roundHalfEven_eq_of_down (x : ℚ) (n : ℤ) (h1 : (n : ℚ) ≤ x)
    (h2 : x - (n : ℚ) < 1/2) : roundHalfEven x = n := by
  have hfl : ⌊x⌋ = n := Int.floor_eq_iff.mpr ⟨h1, by linarith⟩
  unfold roundHalfEven
  rw [hfl]
  exact if_pos h2

/-- roundHalfEven evaluation, rounding up (fraction above one half). -/
theorem roundHalfEven_eq_of_up (x : ℚ) (n : ℤ) (h1 : (n : ℚ) ≤ x)
    (h2 : 1/2 < x - (n : ℚ)) (h3 : x < (n : ℚ) + 1) :
    roundHalfEven x = n + 1 := by
  have hfl : ⌊x⌋ = n := Int.floor_eq_iff.mpr ⟨h1, by linarith⟩
  unfold roundHalfEven
  rw [hfl]
  rw [if_neg (not_lt.mpr (le_of_lt h2)), if_pos h2]

/-- roundHalfEven evaluation at a tie with odd floor: round up. -/
theorem roundHalfEven_eq_of_tie_up (x : ℚ) (n : ℤ) (h2 : x - (n : ℚ) = 1/2)
    (h3 : ¬ n % 2 = 0) : roundHalfEven x = n + 1 := by
  have hfl : ⌊x⌋ = n := Int.floor_eq_iff.mpr ⟨by linarith, by linarith⟩
  unfold roundHalfEven
  rw [hfl, h2]
  rw [if_neg (lt_irrefl _), if_neg (lt_irrefl _), if_neg h3]

/-- roundHalfEven evaluation at a tie with even floor: round down. -/
theorem roundHalfEven_eq_of_tie_down (x : ℚ) (n : ℤ) (h2 : x - (n : ℚ) = 1/2)
    (h3 : n % 2 = 0) : roundHalfEven x = n := by
  have hfl : ⌊x⌋ = n := Int.floor_eq_iff.mpr ⟨by linarith, by linarith⟩
  unfold roundHalfEven
  rw [hfl, h2]
  rw [if_neg (lt_irrefl _), if_neg (lt_irrefl _), if_pos h3]

/-- The base-2 integer logarithm is determined by a bracketing pair of
powers. -/
theorem int_log_two_eq (q : ℚ) (k : ℤ) (h0 : 0 < q) (h1 : (2:ℚ)^k ≤ q)
    (h2 : q < 2^(k+1)) : Int.log 2 q = k := by
  have hle : (2:ℚ)^(Int.log 2 q) ≤ q :=
    Int.zpow_log_le_self (by norm_num) h0
  have hlt : q < (2:ℚ)^(Int.log 2 q + 1) :=
    Int.lt_zpow_succ_log_self (by norm_num) q
  rcases lt_trichotomy k (Int.log 2 q) with h | h | h
  · exfalso
    have : (2:ℚ)^(k+1) ≤ 2^(Int.log 2 q) :=
      zpow_le_zpow_right₀ (by norm_num) (by omega)
    linarith
  · exact h.symm
  · exfalso
    have : (2:ℚ)^(Int.log 2 q + 1) ≤ 2^k :=
      zpow_le_zpow_right₀ (by norm_num) (by omega)
    linarith

/-- Evaluation scheme for dbl: a positive value bracketed by powers of
two with a computed mantissa rounding. -/
theorem dbl_eq (q : ℚ) (k m : ℤ) (h0 : 0 < q) (h1 : (2:ℚ)^k ≤ q)
    (h2 : q < 2^(k+1)) (hm : roundHalfEven (q / 2^(k - 52)) = m) :
    dbl q = (m : ℚ) * 2^(k - 52) := by
  unfold dbl
  rw [if_neg (ne_of_gt h0), abs_of_pos h0, int_log_two_eq q k h0 h1 h2, hm]
/-- Binary64 rounding of 0.05 evaluated. -/
theorem dbl_ev_1 : dbl ((1:ℚ)/20) = ((3602879701896397:ℚ)/72057594037927936) := by
  have hm : roundHalfEven (((1:ℚ)/20) / 2^(((-5) : ℤ) - 52)) = 7205759403792794 := by
    have harg : (((1:ℚ)/20) / 2^(((-5) : ℤ) - 52)) = ((36028797018963968:ℚ)/5) := by norm_num
    rw [harg]
    rw [roundHalfEven_eq_of_up _ 7205759403792793 (by norm_num) (by norm_num) (by norm_num)]
    norm_num
  rw [dbl_eq _ ((-5) : ℤ) 7205759403792794 (by norm_num) (by norm_num) (by norm_num) hm]
  norm_num

/-- Binary64 rounding of 0.04 evaluated. -/
theorem dbl_ev_2 : dbl ((1:ℚ)/25) = ((5764607523034235:ℚ)/144115188075855872) := by
  have hm : roundHalfEven (((1:ℚ)/25) / 2^(((-5) : ℤ) - 52)) = 5764607523034235 := by
    have harg : (((1:ℚ)/25) / 2^(((-5) : ℤ) - 52)) = ((144115188075855872:ℚ)/25) := by norm_num
    rw [harg]
    rw [roundHalfEven_eq_of_up _ 5764607523034234 (by norm_num) (by norm_num) (by norm_num)]
    norm_num
  rw [dbl_eq _ ((-5) : ℤ) 5764607523034235 (by norm_num) (by norm_num) (by norm_num) hm]
  norm_num

/-- Binary64 rounding of 0.85 evaluated. -/
theorem dbl_ev_3 : dbl ((17:ℚ)/20) = ((7656119366529843:ℚ)/9007199254740992) := by
  have hm : roundHalfEven (((17:ℚ)/20) / 2^(((-1) : ℤ) - 52)) = 7656119366529843 := by
    have harg : (((17:ℚ)/20) / 2^(((-1) : ℤ) - 52)) = ((38280596832649216:ℚ)/5) := by norm_num
    rw [harg]
    exact roundHalfEven_eq_of_down _ _ (by norm_num) (by norm_num)
  rw [dbl_eq _ ((-1) : ℤ) 7656119366529843 (by norm_num) (by norm_num) (by norm_num) hm]
  norm_num

/-- Binary64 rounding of 1.25 evaluated. -/
theorem dbl_ev_4 : dbl ((5:ℚ)/4) = ((5:ℚ)/4) := by
  have hm : roundHalfEven (((5:ℚ)/4) / 2^((0 : ℤ) - 52)) = 5629499534213120 := by
    have harg : (((5:ℚ)/4) / 2^((0 : ℤ) - 52)) = (5629499534213120:ℚ) := by norm_num
    rw [harg]
    exact roundHalfEven_eq_of_down _ _ (by norm_num) (by norm_num)
  rw [dbl_eq _ (0 : ℤ) 5629499534213120 (by norm_num) (by norm_num) (by norm_num) hm]
  norm_num

/-- Binary64 rounding of 2.0 evaluated. -/
theorem dbl_ev_5 : dbl (2:ℚ) = (2:ℚ) := by
  have hm : roundHalfEven ((2:ℚ) / 2^((1 : ℤ) - 52)) = 4503599627370496 := by
    have harg : ((2:ℚ) / 2^((1 : ℤ) - 52)) = (4503599627370496:ℚ) := by norm_num
    rw [harg]
    exact roundHalfEven_eq_of_down _ _ (by norm_num) (by norm_num)
  rw [dbl_eq _ (1 : ℤ) 4503599627370496 (by norm_num) (by norm_num) (by norm_num) hm]
  norm_num

/-- Binary64 rounding of 30.0 evaluated. -/
theorem dbl_ev_6 : dbl (30:ℚ) = (30:ℚ) := by
  have hm : roundHalfEven ((30:ℚ) / 2^((4 : ℤ) - 52)) = 8444249301319680 := by
    have harg : ((30:ℚ) / 2^((4 : ℤ) - 52)) = (8444249301319680:ℚ) := by norm_num
    rw [harg]
    exact roundHalfEven_eq_of_down _ _ (by norm_num) (by norm_num)
  rw [dbl_eq _ (4 : ℤ) 8444249301319680 (by norm_num) (by norm_num) (by norm_num) hm]
  norm_num

/-- Binary64 rounding of 35.0 evaluated. -/
theorem dbl_ev_7 : dbl (35:ℚ) = (35:ℚ) := by
  have hm : roundHalfEven ((35:ℚ) / 2^((5 : ℤ) - 52)) = 4925812092436480 := by
    have harg : ((35:ℚ) / 2^((5 : ℤ) - 52)) = (4925812092436480:ℚ) := by norm_num
    rw [harg]
    exact roundHalfEven_eq_of_down _ _ (by norm_num) (by norm_num)
  rw [dbl_eq _ (5 : ℤ) 4925812092436480 (by norm_num) (by norm_num) (by norm_num) hm]
  norm_num

/-- Binary64 rounding of 1.0 evaluated. -/
theorem dbl_ev_8 : dbl (1:ℚ) = (1:ℚ) := by
  have hm : roundHalfEven ((1:ℚ) / 2^((0 : ℤ) - 52)) = 4503599627370496 := by
    have harg : ((1:ℚ) / 2^((0 : ℤ) - 52)) = (4503599627370496:ℚ) := by norm_num
    rw [harg]
    exact roundHalfEven_eq_of_down _ _ (by norm_num) (by norm_num)
  rw [dbl_eq _ (0 : ℤ) 4503599627370496 (by norm_num) (by norm_num) (by norm_num) hm]
  norm_num

/-- Binary64 rounding of 1.75 evaluated. -/
theorem dbl_ev_9 : dbl ((126100789566373895:ℚ)/72057594037927936) = ((7:ℚ)/4) := by
  have hm : roundHalfEven (((126100789566373895:ℚ)/72057594037927936) / 2^((0 : ℤ) - 52)) = 7881299347898368 := by
    have harg : (((126100789566373895:ℚ)/72057594037927936) / 2^((0 : ℤ) - 52)) = ((126100789566373895:ℚ)/16) := by norm_num
    rw [harg]
    exact roundHalfEven_eq_of_down _ _ (by norm_num) (by norm_num)
  rw [dbl_eq _ (0 : ℤ) 7881299347898368 (by norm_num) (by norm_num) (by norm_num) hm]
  norm_num

/-- Binary64 rounding of 70.0 evaluated. -/
theorem dbl_ev_10 : dbl (70:ℚ) = (70:ℚ) := by
  have hm : roundHalfEven ((70:ℚ) / 2^((6 : ℤ) - 52)) = 4925812092436480 := by
    have harg : ((70:ℚ) / 2^((6 : ℤ) - 52)) = (4925812092436480:ℚ) := by norm_num
    rw [harg]
    exact roundHalfEven_eq_of_down _ _ (by norm_num) (by norm_num)
  rw [dbl_eq _ (6 : ℤ) 4925812092436480 (by norm_num) (by norm_num) (by norm_num) hm]
  norm_num

/-- Binary64 rounding of 2.8000000000000003 evaluated. -/
theorem dbl_ev_11 : dbl ((201761263306198225:ℚ)/72057594037927936) = ((6305039478318695:ℚ)/2251799813685248) := by
  have hm : roundHalfEven (((201761263306198225:ℚ)/72057594037927936) / 2^((1 : ℤ) - 52)) = 6305039478318695 := by
    have harg : (((201761263306198225:ℚ)/72057594037927936) / 2^((1 : ℤ) - 52)) = ((201761263306198225:ℚ)/32) := by norm_num
    rw [harg]
    rw [roundHalfEven_eq_of_up _ 6305039478318694 (by norm_num) (by norm_num) (by norm_num)]
    norm_num
  rw [dbl_eq _ (1 : ℤ) 6305039478318695 (by norm_num) (by norm_num) (by norm_num) hm]
  norm_num

/-- Binary64 rounding of 4.550000000000001 evaluated. -/
theorem dbl_ev_12 : dbl ((10245689152267879:ℚ)/2251799813685248) = ((1280711144033485:ℚ)/281474976710656) := by
  have hm : roundHalfEven (((10245689152267879:ℚ)/2251799813685248) / 2^((2 : ℤ) - 52)) = 5122844576133940 := by
    have harg : (((10245689152267879:ℚ)/2251799813685248) / 2^((2 : ℤ) - 52)) = ((10245689152267879:ℚ)/2) := by norm_num
    rw [harg]
    rw [roundHalfEven_eq_of_tie_up _ 5122844576133939 (by norm_num) (by decide)]
    norm_num
  rw [dbl_eq _ (2 : ℤ) 5122844576133940 (by norm_num) (by norm_num) (by norm_num) hm]
  norm_num

/-- Binary64 rounding of 39.55 evaluated. -/
theorem dbl_ev_13 : dbl ((11132335328906445:ℚ)/281474976710656) = ((2783083832226611:ℚ)/70368744177664) := by
  have hm : roundHalfEven (((11132335328906445:ℚ)/281474976710656) / 2^((5 : ℤ) - 52)) = 5566167664453222 := by
    have harg : (((11132335328906445:ℚ)/281474976710656) / 2^((5 : ℤ) - 52)) = ((11132335328906445:ℚ)/2) := by norm_num
    rw [harg]
    exact roundHalfEven_eq_of_tie_down _ _ (by norm_num) (by decide)
  rw [dbl_eq _ (5 : ℤ) 5566167664453222 (by norm_num) (by norm_num) (by norm_num) hm]
  norm_num

/-- Binary64 rounding of 79.1 evaluated. -/
theorem dbl_ev_14 : dbl ((2783083832226611:ℚ)/35184372088832) = ((2783083832226611:ℚ)/35184372088832) := by
  have hm : roundHalfEven (((2783083832226611:ℚ)/35184372088832) / 2^((6 : ℤ) - 52)) = 5566167664453222 := by
    have harg : (((2783083832226611:ℚ)/35184372088832) / 2^((6 : ℤ) - 52)) = (5566167664453222:ℚ) := by norm_num
    rw [harg]
    exact roundHalfEven_eq_of_down _ _ (by norm_num) (by norm_num)
  rw [dbl_eq _ (6 : ℤ) 5566167664453222 (by norm_num) (by norm_num) (by norm_num) hm]
  norm_num

/-- Binary64 rounding of 39.55 evaluated. -/
theorem dbl_ev_15 : dbl ((2783083832226611:ℚ)/70368744177664) = ((2783083832226611:ℚ)/70368744177664) := by
  have hm : roundHalfEven (((2783083832226611:ℚ)/70368744177664) / 2^((5 : ℤ) - 52)) = 5566167664453222 := by
    have harg : (((2783083832226611:ℚ)/70368744177664) / 2^((5 : ℤ) - 52)) = (5566167664453222:ℚ) := by norm_num
    rw [harg]
    exact roundHalfEven_eq_of_down _ _ (by norm_num) (by norm_num)
  rw [dbl_eq _ (5 : ℤ) 5566167664453222 (by norm_num) (by norm_num) (by norm_num) hm]
  norm_num

/-- Binary64 rounding of 0.5 evaluated. -/
theorem dbl_ev_16 : dbl ((1:ℚ)/2) = ((1:ℚ)/2) := by
  have hm : roundHalfEven (((1:ℚ)/2) / 2^(((-1) : ℤ) - 52)) = 4503599627370496 := by
    have harg : (((1:ℚ)/2) / 2^(((-1) : ℤ) - 52)) = (4503599627370496:ℚ) := by norm_num
    rw [harg]
    exact roundHalfEven_eq_of_down _ _ (by norm_num) (by norm_num)
  rw [dbl_eq _ ((-1) : ℤ) 4503599627370496 (by norm_num) (by norm_num) (by norm_num) hm]
  norm_num

/-- Binary64 rounding of 50.0 evaluated. -/
theorem dbl_ev_17 : dbl (50:ℚ) = (50:ℚ) := by
  have hm : roundHalfEven ((50:ℚ) / 2^((5 : ℤ) - 52)) = 7036874417766400 := by
    have harg : ((50:ℚ) / 2^((5 : ℤ) - 52)) = (7036874417766400:ℚ) := by norm_num
    rw [harg]
    exact roundHalfEven_eq_of_down _ _ (by norm_num) (by norm_num)
  rw [dbl_eq _ (5 : ℤ) 7036874417766400 (by norm_num) (by norm_num) (by norm_num) hm]
  norm_num

/-- Binary64 rounding of 100.0 evaluated. -/
theorem dbl_ev_18 : dbl (100:ℚ) = (100:ℚ) := by
  have hm : roundHalfEven ((100:ℚ) / 2^((6 : ℤ) - 52)) = 7036874417766400 := by
    have harg : ((100:ℚ) / 2^((6 : ℤ) - 52)) = (7036874417766400:ℚ) := by norm_num
    rw [harg]
    exact roundHalfEven_eq_of_down _ _ (by norm_num) (by norm_num)
  rw [dbl_eq _ (6 : ℤ) 7036874417766400 (by norm_num) (by norm_num) (by norm_num) hm]
  norm_num

/-- Binary64 rounding of 67.235 evaluated. -/
theorem dbl_ev_19 : dbl ((21307622026586248864567070252073:ℚ)/316912650057057350374175801344) = ((4731242514785239:ℚ)/70368744177664) := by
  have hm : roundHalfEven (((21307622026586248864567070252073:ℚ)/316912650057057350374175801344) / 2^((6 : ℤ) - 52)) = 4731242514785239 := by
    have harg : (((21307622026586248864567070252073:ℚ)/316912650057057350374175801344) / 2^((6 : ℤ) - 52)) = ((21307622026586248864567070252073:ℚ)/4503599627370496) := by norm_num
    rw [harg]
    rw [roundHalfEven_eq_of_up _ 4731242514785238 (by norm_num) (by norm_num) (by norm_num)]
    norm_num
  rw [dbl_eq _ (6 : ℤ) 4731242514785239 (by norm_num) (by norm_num) (by norm_num) hm]
  norm_num

/-- Binary64 rounding of 98.875 evaluated. -/
theorem dbl_ev_20 : dbl ((13915419161133055:ℚ)/140737488355328) = ((791:ℚ)/8) := by
  have hm : roundHalfEven (((13915419161133055:ℚ)/140737488355328) / 2^((6 : ℤ) - 52)) = 6957709580566528 := by
    have harg : (((13915419161133055:ℚ)/140737488355328) / 2^((6 : ℤ) - 52)) = ((13915419161133055:ℚ)/2) := by norm_num
    rw [harg]
    rw [roundHalfEven_eq_of_tie_up _ 6957709580566527 (by norm_num) (by decide)]
    norm_num
  rw [dbl_eq _ (6 : ℤ) 6957709580566528 (by norm_num) (by norm_num) (by norm_num) hm]
  norm_num

/-- Binary64 rounding of 79.1 evaluated. -/
theorem dbl_ev_21 : dbl ((791:ℚ)/10) = ((2783083832226611:ℚ)/35184372088832) := by
  have hm : roundHalfEven (((791:ℚ)/10) / 2^((6 : ℤ) - 52)) = 5566167664453222 := by
    have harg : (((791:ℚ)/10) / 2^((6 : ℤ) - 52)) = ((27830838322266112:ℚ)/5) := by norm_num
    rw [harg]
    exact roundHalfEven_eq_of_down _ _ (by norm_num) (by norm_num)
  rw [dbl_eq _ (6 : ℤ) 5566167664453222 (by norm_num) (by norm_num) (by norm_num) hm]
  norm_num

/-- Binary64 rounding of 67.23 evaluated. -/
theorem dbl_ev_22 : dbl ((6723:ℚ)/100) = ((4730890671064351:ℚ)/70368744177664) := by
  have hm : roundHalfEven (((6723:ℚ)/100) / 2^((6 : ℤ) - 52)) = 4730890671064351 := by
    have harg : (((6723:ℚ)/100) / 2^((6 : ℤ) - 52)) = ((118272266776608768:ℚ)/25) := by norm_num
    rw [harg]
    rw [roundHalfEven_eq_of_up _ 4730890671064350 (by norm_num) (by norm_num) (by norm_num)]
    norm_num
  rw [dbl_eq _ (6 : ℤ) 4730890671064351 (by norm_num) (by norm_num) (by norm_num) hm]
  norm_num

/-- Binary64 rounding of 98.88 evaluated. -/
theorem dbl_ev_23 : dbl ((2472:ℚ)/25) = ((869757678035927:ℚ)/8796093022208) := by
  have hm : roundHalfEven (((2472:ℚ)/25) / 2^((6 : ℤ) - 52)) = 6958061424287416 := by
    have harg : (((2472:ℚ)/25) / 2^((6 : ℤ) - 52)) = ((173951535607185408:ℚ)/25) := by norm_num
    rw [harg]
    exact roundHalfEven_eq_of_down _ _ (by norm_num) (by norm_num)
  rw [dbl_eq _ (6 : ℤ) 6958061424287416 (by norm_num) (by norm_num) (by norm_num) hm]
  norm_num

/-- Binary64 rounding of 39.55 evaluated. -/
theorem dbl_ev_24 : dbl ((791:ℚ)/20) = ((2783083832226611:ℚ)/70368744177664) := by
  have hm : roundHalfEven (((791:ℚ)/20) / 2^((5 : ℤ) - 52)) = 5566167664453222 := by
    have harg : (((791:ℚ)/20) / 2^((5 : ℤ) - 52)) = ((27830838322266112:ℚ)/5) := by norm_num
    rw [harg]
    exact roundHalfEven_eq_of_down _ _ (by norm_num) (by norm_num)
  rw [dbl_eq _ (5 : ℤ) 5566167664453222 (by norm_num) (by norm_num) (by norm_num) hm]
  norm_num

/-- Binary64 rounding of 67.24 evaluated. -/
theorem dbl_ev_25 : dbl ((1681:ℚ)/25) = ((4731594358506127:ℚ)/70368744177664) := by
  have hm : roundHalfEven (((1681:ℚ)/25) / 2^((6 : ℤ) - 52)) = 4731594358506127 := by
    have harg : (((1681:ℚ)/25) / 2^((6 : ℤ) - 52)) = ((118289858962653184:ℚ)/25) := by norm_num
    rw [harg]
    exact roundHalfEven_eq_of_down _ _ (by norm_num) (by norm_num)
  rw [dbl_eq _ (6 : ℤ) 4731594358506127 (by norm_num) (by norm_num) (by norm_num) hm]
  norm_num

/-- Decimal rounding of the double final price 79.099999999999994316. -/
theorem round2_ev_1 : round2 ((2783083832226611:ℚ)/35184372088832) =
    791/10 := by
  have h := round2_eq_of_gt ((2783083832226611:ℚ)/35184372088832) 7909
    (by norm_num) (by norm_num) (by norm_num)
  norm_num at h ⊢; exact h

/-- Decimal rounding of the double economy price 67.234999999999999432:
below the 67.235 midpoint, so it rounds to 67.23. -/
theorem round2_ev_2 : round2 ((4731242514785239:ℚ)/70368744177664) =
    6723/100 := by
  have h := round2_eq_of_lt ((4731242514785239:ℚ)/70368744177664) 6723
    (by norm_num) (by norm_num)
  norm_num at h ⊢; exact h

/-- Decimal rounding of the double premium price, exactly 98.875: an
exact tie, rounded half-even to 98.88. -/
theorem round2_ev_3 : round2 ((791:ℚ)/8) = 2472/25 := by
  have h := round2_eq_of_tie_odd ((791:ℚ)/8) 9887 (by norm_num) (by decide)
  norm_num at h ⊢; exact h

/-- Decimal rounding of the double profit 39.549999999999997158. -/
theorem round2_ev_4 : round2 ((2783083832226611:ℚ)/70368744177664) =
    791/20 := by
  have h := round2_eq_of_gt ((2783083832226611:ℚ)/70368744177664) 3954
    (by norm_num) (by norm_num) (by norm_num)
  norm_num at h ⊢; exact h

/-- Decimal rounding of the exact margin 50. -/
theorem round2_ev_5 : round2 (50:ℚ) = 50 := by
  have h := round2_eq_of_lt (50:ℚ) 5000 (by norm_num) (by norm_num)
  norm_num at h ⊢; exact h

/-- Decimal rounding of the exact markup 100. -/
theorem round2_ev_6 : round2 (100:ℚ) = 100 := by
  have h := round2_eq_of_lt (100:ℚ) 10000 (by norm_num) (by norm_num)
  norm_num at h ⊢; exact h

/-- C2 as stated is false of the program, which computes in IEEE
doubles: at the Simple Jewelry input the returned economy_price is the
double nearest 67.23 (the unrounded economy value
67.234999999999999432 lies below the 67.235 midpoint), not 67.24 under
either reading of decimal equality, and the returned unrounded
demand_adjustment and factor_adjustment are the doubles
2.8000000000000003 and 4.5500000000000007, not 2.8 and 4.55. -/
theorem c2_scenario_counterexample :
    (calculate_price_fp defaultWeightsF 5 2 15 6 7 (some 0)).economy_price =
      dbl (6723/100) ∧
    (calculate_price_fp defaultWeightsF 5 2 15 6 7 (some 0)).economy_price ≠
      6724/100 ∧
    (calculate_price_fp defaultWeightsF 5 2 15 6 7 (some 0)).economy_price ≠
      dbl (6724/100) ∧
    (calculate_price_fp defaultWeightsF 5 2 15 6 7
      (some 0)).demand_adjustment ≠ 28/10 ∧
    (calculate_price_fp defaultWeightsF 5 2 15 6 7
      (some 0)).factor_adjustment ≠ 455/100 := by
  simp only [calculate_price_fp, defaultWeightsF, round2f]
  norm_num [Option.getD_some, dbl_ev_1, dbl_ev_2, dbl_ev_3, dbl_ev_4,
    dbl_ev_5, dbl_ev_6, dbl_ev_7, dbl_ev_8, dbl_ev_9, dbl_ev_10, dbl_ev_11,
    dbl_ev_12, dbl_ev_13, dbl_ev_14, dbl_ev_15, dbl_ev_16, dbl_ev_17,
    dbl_ev_18, dbl_ev_19, dbl_ev_20, dbl_ev_21, dbl_ev_22, dbl_ev_23,
    dbl_ev_24, dbl_ev_25, round2_ev_1, round2_ev_2, round2_ev_3,
    round2_ev_4, round2_ev_5, round2_ev_6]

/-- C2 (amended): under the IEEE double semantics the program computes
with, the Simple Jewelry scenario returns labor_cost 30, base_price 35,
uniqueness_adjustment 1.75, profit_margin_percentage 50 and
markup_percentage 100 exactly; demand_adjustment is the double
2.8000000000000003 and factor_adjustment the double 4.5500000000000007
(returned unrounded); adjusted_price and profit_amount are the double
nearest 39.55, final_price the double nearest 79.10, economy_price the
double nearest 67.23 and premium_price the double nearest 98.88, as the
trailing identities state; the double nearest 39.55 is not the exact
decimal 39.55. -/
theorem c2_scenario_double :
    calculate_price_fp defaultWeightsF 5 2 15 6 7 (some 0) =
      { material_cost := 5
        labor_cost := 30
        base_price := 35
        uniqueness_adjustment := 7/4
        demand_adjustment := 6305039478318695/2251799813685248
        factor_adjustment := 1280711144033485/281474976710656
        adjusted_price := 2783083832226611/70368744177664
        profit_amount := 2783083832226611/70368744177664
        profit_margin_percentage := 50
        markup_percentage := 100
        final_price := 2783083832226611/35184372088832
        economy_price := 4730890671064351/70368744177664
        premium_price := 869757678035927/8796093022208
        selling_price := 0 } ∧
    dbl (3955/100) = 2783083832226611/70368744177664 ∧
    dbl (7910/100) = 2783083832226611/35184372088832 ∧
    dbl (6723/100) = 4730890671064351/70368744177664 ∧
    dbl (9888/100) = 869757678035927/8796093022208 ∧
    dbl (3955/100) ≠ 3955/100 := by
  simp only [calculate_price_fp, defaultWeightsF, round2f]
  norm_num [Option.getD_some, dbl_ev_1, dbl_ev_2, dbl_ev_3, dbl_ev_4,
    dbl_ev_5, dbl_ev_6, dbl_ev_7, dbl_ev_8, dbl_ev_9, dbl_ev_10, dbl_ev_11,
    dbl_ev_12, dbl_ev_13, dbl_ev_14, dbl_ev_15, dbl_ev_16, dbl_ev_17,
    dbl_ev_18, dbl_ev_19, dbl_ev_20, dbl_ev_21, dbl_ev_22, dbl_ev_23,
    dbl_ev_24, dbl_ev_25, round2_ev_1, round2_ev_2, round2_ev_3,
    round2_ev_4, round2_ev_5, round2_ev_6]
